import Mathlib

deriving instance DecidableEq for Except

/-!
Verification development for the PropertyGuru crawler repository.

The repository has two source files:
- an Express server (`src/unnamed/part_000`) whose `FastCrawler` class drives
  a pool of browsers over a batch of URLs (`initBrowsers`, `crawlPropertyGuru`,
  `crawlMultipleUrls`, `emitProgress`);
- a CLI (`src/crawler.js`) whose `crawlPriceHistory` runs the same
  pagination-and-extraction algorithm against a single URL.

The browser-automation layer (puppeteer) is external: its observable behaviour
at each call site (did navigation throw, did the selector appear, what rows are
in the DOM, does the next button exist / is it enabled, did the click throw)
is modelled by explicit environment records.  Everything the program itself
computes from those observations is translated directly from the source.
-/

/-! ## Transaction records (src/unnamed/part_000 lines 190-280; src/crawler.js lines 117-212)

A transaction is a JavaScript object whose keys are assigned conditionally;
a key that is never assigned (or assigned `undefined`) is omitted from the
serialized record.  We model every field as `Option String`, `none` standing
for an omitted field. -/

structure Transaction where
  date : Option String
  bedrooms : Option String
  size : Option String
  price : Option String
  pricePerSqft : Option String
  floorLevel : Option String
  buildStatus : Option String
  lease : Option String
  address : Option String
  floor : Option String
deriving DecidableEq, Repr

/-- One collapsed table row as the extraction script observes it.
For each cell located by its `da-id` attribute the outer `Option` records
whether the cell element exists; the inner `Option String` is the
`?.textContent?.trim()` chain on the relevant sub-element (missing sub-element
or null text yields `none`).  `row-bedroom` and `row-price` cells carry a
`.main-text` and a `.sub-text` sub-value, hence a pair. -/
structure ExpandedPanel where
  leaseItem : Option (Option String)
  addressItem : Option (Option String)
deriving DecidableEq, Repr

structure RowInput where
  dateCell : Option (Option String)
  bedroomCell : Option (Option String × Option String)
  priceCell : Option (Option String × Option String)
  floorCell : Option (Option String)
  completedCell : Option (Option String)
  expandedRow : Option ExpandedPanel
deriving DecidableEq, Repr

/-- Scan for the leftmost occurrence of the JavaScript regular expression
`#(\d+)-` (part_000 line 268, crawler.js line 200): a `#`, one or more ASCII
digits, then a `-`; the returned value is capture group 1, the digit run. -/
def floorScan : List Char → Option (List Char)
  | [] => none
  | c :: rest =>
    let ds := rest.takeWhile (fun ch => ch.isDigit)
    if c = '#' ∧ ds ≠ [] ∧ (rest.drop ds.length).head? = some '-'
    then some ds
    else floorScan rest

def floorMatchStr (s : String) : Option String :=
  (floorScan s.toList).map (fun ds => String.mk ds)

/-- The per-row body of the extraction script (part_000 lines 194-277,
textually identical in crawler.js lines 121-209).  Each output field is the
value the script's conditional assignments leave in the transaction object:
`none` when the guarding cell is absent, otherwise the optional text chain.
`floor` is assigned only when the expanded address item exists, the address
text is truthy (JavaScript: defined and non-empty), and the regex matches. -/
def extractRow (r : RowInput) : Transaction :=
  { date := match r.dateCell with | some t => t | none => none
  , bedrooms := match r.bedroomCell with | some c => c.1 | none => none
  , size := match r.bedroomCell with | some c => c.2 | none => none
  , price := match r.priceCell with | some c => c.1 | none => none
  , pricePerSqft := match r.priceCell with | some c => c.2 | none => none
  , floorLevel := match r.floorCell with | some t => t | none => none
  , buildStatus := match r.completedCell with | some t => t | none => none
  , lease := match r.expandedRow with
      | some panel => (match panel.leaseItem with | some t => t | none => none)
      | none => none
  , address := match r.expandedRow with
      | some panel => (match panel.addressItem with | some t => t | none => none)
      | none => none
  , floor := match r.expandedRow with
      | some panel =>
        (match panel.addressItem with
          | some addr =>
            (match addr with
              | some a => if a = "" then none else floorMatchStr a
              | none => none)
          | none => none)
      | none => none }

/-! ## Pagination loop of FastCrawler.crawlPropertyGuru (part_000 lines 158-318)

Each iteration of the `while (hasNextPage)` loop observes the page in a fixed
order: wait for `.table-row-collapsed` (a timeout breaks the loop), extract
the rows, query the next button (`exists` / `enabled` where enabled means the
enclosing `li` does not carry the `disabled` class), and, if the button is
usable, click it (a throw ends the loop, otherwise the page counter is
incremented).  One `PageState` records those observations for one iteration;
the loop consumes the list of states in order. -/

structure PageState where
  rowsAppear : Bool
  rowInputs : List RowInput
  nextExists : Bool
  nextEnabled : Bool
  clickOk : Bool
deriving DecidableEq, Repr

def pagLoop : List PageState → List Transaction → Nat → List Transaction × Nat
  | [], acc, currentPage => (acc, currentPage)
  | st :: rest, acc, currentPage =>
    if !st.rowsAppear then (acc, currentPage)
    else
      let allTransactions := acc ++ st.rowInputs.map extractRow
      if !st.nextExists || !st.nextEnabled then (allTransactions, currentPage)
      else if st.clickOk then pagLoop rest allTransactions (currentPage + 1)
      else (allTransactions, currentPage)

/-! ## FastCrawler.crawlPropertyGuru (part_000 lines 76-353) -/

/-- Browser instances are opaque to the model; an instance is identified by a
number. -/
abbrev Browser := Nat

/-- Line 77: `const browserIndex = urlIndex % this.browsers.length`. -/
def browserIndexFor (urlIndex : Nat) (browsers : List Browser) : Nat :=
  urlIndex % browsers.length

/-- The result object of one per-URL crawl; again, JavaScript object keys that
a given return path does not set are `none`.  The early error paths (lines 137
and 345-349) produce `{ url, error, transactions: [] }`; the normal path
(lines 328-334) produces `{ url, scrapedAt, totalTransactions, totalPages,
transactions }` (the wall-clock `scrapedAt` is outside the model). -/
structure CrawlData where
  url : String
  error : Option String
  totalTransactions : Option Nat
  totalPages : Option Nat
  transactions : List Transaction
deriving DecidableEq, Repr

/-- Environment for one `crawlPropertyGuru` call: whether `browser.newPage()`
throws (it is awaited before the `try`, so a throw rejects the promise),
whether `page.goto` throws and with what message, whether the
`.price-history-table-root` selector appears within its 10s bound, and the
per-iteration observations of the pagination loop. -/
structure CrawlEnv where
  newPageOk : Bool
  newPageErrMsg : String
  navOk : Bool
  navErrMsg : String
  tableRootAppears : Bool
  pages : List PageState
deriving DecidableEq, Repr

/-- Model of `crawlPropertyGuru`.  `Except.error` is a rejected promise (a
throw that escapes the function), `Except.ok` a fulfilled one.  Inside the
`try` block every throw is caught at line 335 and converted into the fulfilled
error-shaped result, so navigation failure and table-root absence both
fulfill.  Progress emission (a side channel that never throws, see
`emitProgress`) does not affect the returned value and is modelled
separately. -/
def crawlPropertyGuru (browsers : List Browser) (url : String) (urlIndex : Nat)
    (env : CrawlEnv) : Except String CrawlData :=
  match browsers[browserIndexFor urlIndex browsers]? with
  | none => Except.error "Browser not available"
  | some _browser =>
    if !env.newPageOk then Except.error env.newPageErrMsg
    else if !env.navOk then
      Except.ok { url := url, error := some env.navErrMsg,
                  totalTransactions := none, totalPages := none, transactions := [] }
    else if !env.tableRootAppears then
      Except.ok { url := url, error := some "No price history table found",
                  totalTransactions := none, totalPages := none, transactions := [] }
    else
      let out := pagLoop env.pages [] 1
      Except.ok { url := url, error := none,
                  totalTransactions := some out.1.length, totalPages := some out.2,
                  transactions := out.1 }

/-! ## FastCrawler.initBrowsers and crawlMultipleUrls (part_000 lines 36-74, 362-382) -/

/-- JavaScript `String.prototype.trim`: strip whitespace from both ends
(part_000 line 368 applies it to each URL before crawling). -/
def jsTrim (s : String) : String :=
  String.mk (((s.toList.dropWhile Char.isWhitespace).reverse.dropWhile
    Char.isWhitespace).reverse)

/-- `Array.prototype.map` with the element index, as used at lines 367 and
372. -/
def mapWithIndex (f : Nat → α → β) : Nat → List α → List β
  | _, [] => []
  | i, a :: as => f i a :: mapWithIndex f (i + 1) as

/-- The `for` loop of `initBrowsers` (lines 39-73): launch one browser per
iteration and push it onto `this.browsers`.  `launch i` is the observable
outcome of the i-th `puppeteer.launch`; a throw leaves the loop with the
browsers pushed so far still open and the error propagating. -/
def initBrowsersLoop (launch : Nat → Except String Browser) (i : Nat) :
    Nat → List Browser → List Browser × Option String
  | 0, browsers => (browsers, none)
  | fuel + 1, browsers =>
    match launch i with
    | Except.error e => (browsers, some e)
    | Except.ok b => initBrowsersLoop launch (i + 1) fuel (browsers ++ [b])

def initBrowsers (launch : Nat → Except String Browser) (concurrency : Nat) :
    List Browser × Option String :=
  initBrowsersLoop launch 0 concurrency []

/-- One element of the aggregated batch result (lines 372-377). -/
structure BatchEntry where
  url : String
  success : Bool
  data : Option CrawlData
  error : Option String
deriving DecidableEq, Repr

/-- The object built for `results[index]` at lines 372-377: `success` is
whether the settled promise was fulfilled, `data` the fulfilled value or
`null`, `error` the rejection reason's message or `null`. -/
def settleEntry (urls : List String) (i : Nat) (result : Except String CrawlData) :
    BatchEntry :=
  { url := urls.getD i ""
  , success := match result with | Except.ok _ => true | Except.error _ => false
  , data := match result with | Except.ok v => some v | Except.error _ => none
  , error := match result with | Except.error e => some e | Except.ok _ => none }

/-- Model of `crawlMultipleUrls`.  Note the control flow of the source:
`await this.initBrowsers()` happens BEFORE the `try` block, so a throw during
provisioning propagates without running the `finally` that closes browsers;
the second component of the result is the list of browsers still open when
the call finishes.  `aggErr` models a throw inside the `try` block itself
(e.g. from the aggregation machinery); the `finally` then still closes every
browser.  `Promise.allSettled` (line 366) runs every per-URL crawl and never
rejects; `env i` is the observable page behaviour for the i-th URL. -/
def crawlMultipleUrls (launch : Nat → Except String Browser) (concurrency : Nat)
    (urls : List String) (env : Nat → CrawlEnv) (aggErr : Option String) :
    Except String (List BatchEntry) × List Browser :=
  let bi := initBrowsers launch concurrency
  match bi.2 with
  | some e => (Except.error e, bi.1)
  | none =>
    match aggErr with
    | some e => (Except.error e, [])
    | none =>
      let results := mapWithIndex
        (fun i url => crawlPropertyGuru bi.1 (jsTrim url) i (env i)) 0 urls
      (Except.ok (mapWithIndex (settleEntry urls) 0 results), [])

/-! ## Session registry and FastCrawler.emitProgress (part_000 lines 25, 355-360, 409, 462)

`activeCrawls` is a `Map` from session id to `{ res, startTime }`.  We model
the map as an association list with unique keys and the attached response
stream `res` as the list of event payloads written to it so far (`none` when
no stream is attached). -/

structure CrawlSession where
  res : Option (List String)
  startTime : Nat
deriving DecidableEq, Repr

/-- Lines 355-360: look the session up; if it exists and has a `res`, write
the event to it (append to the stream); otherwise do nothing.  The function
is total: an absent session can never make the call throw. -/
def emitProgress (activeCrawls : List (String × CrawlSession)) (sessionId : String)
    (data : String) : List (String × CrawlSession) :=
  match List.lookup sessionId activeCrawls with
  | none => activeCrawls
  | some session =>
    match session.res with
    | none => activeCrawls
    | some written =>
      activeCrawls.map (fun p =>
        if p.1 = sessionId then (p.1, { session with res := some (written ++ [data]) })
        else p)

/-- Line 462: `activeCrawls.delete(sessionId)`. -/
def deleteSession (activeCrawls : List (String × CrawlSession)) (sessionId : String) :
    List (String × CrawlSession) :=
  activeCrawls.filter (fun p => p.1 ≠ sessionId)

/-! ## CLI crawlPriceHistory (src/crawler.js lines 7-300)

The CLI variant differs from `FastCrawler.crawlPropertyGuru` in two ways that
matter here: the wait for `.table-row-collapsed` happens once BEFORE the loop
(lines 79-84, an early `return` if absent), and the early returns at lines 52
and 84 leave the function without writing any output document. -/

structure CliPage where
  rowInputs : List RowInput
  nextExists : Bool
  nextEnabled : Bool
  clickOk : Bool
deriving DecidableEq, Repr

structure CliEnv where
  navOk : Bool
  navErrMsg : String
  tableRootAppears : Bool
  initialRowsAppear : Bool
  pages : List CliPage
deriving DecidableEq, Repr

/-- The `while (hasNextPage)` loop of crawler.js lines 90-259; unlike the
server variant there is no per-iteration row wait, so an iteration always
extracts (possibly zero rows) and then inspects the next button. -/
def pagLoopCli : List CliPage → List Transaction → Nat → List Transaction × Nat
  | [], acc, currentPage => (acc, currentPage)
  | st :: rest, acc, currentPage =>
    let allTransactions := acc ++ st.rowInputs.map extractRow
    if !st.nextExists || !st.nextEnabled then (allTransactions, currentPage)
    else if st.clickOk then pagLoopCli rest allTransactions (currentPage + 1)
    else (allTransactions, currentPage)

/-- The document written to the output file at lines 263-271 (`scrapedAt`
is outside the model). -/
structure CliResult where
  url : String
  totalTransactions : Nat
  totalPages : Nat
  transactions : List Transaction
deriving DecidableEq, Repr

/-- Model of `crawlPriceHistory`: `Except.error` is the rethrow at line 294,
`Except.ok none` an early return that writes nothing (lines 52 and 84),
`Except.ok (some doc)` the completed run with its output document. -/
def crawlPriceHistory (url : String) (env : CliEnv) :
    Except String (Option CliResult) :=
  if !env.navOk then Except.error env.navErrMsg
  else if !env.tableRootAppears then Except.ok none
  else if !env.initialRowsAppear then Except.ok none
  else
    let out := pagLoopCli env.pages [] 1
    Except.ok (some { url := url, totalTransactions := out.1.length,
                      totalPages := out.2, transactions := out.1 })

/-! ## CLI option handling (src/crawler.js lines 431-469)

Both commands declare `--headless <mode>` with default string "false" and
compute `options.headless === "false" ? false : true`. -/

def headlessOptionDefault : String := "false"

def priceHistoryHeadlessMode (optHeadless : String) : Bool :=
  if optHeadless = "false" then false else true

def crawlCommandHeadlessMode (optHeadless : String) : Bool :=
  if optHeadless = "false" then false else true

/-! ## Concrete environments used by the claim-level theorems -/

/-- A row whose only present cell is the date cell. -/
def rowWithDate (d : String) : RowInput :=
  { dateCell := some (some d), bedroomCell := none, priceCell := none,
    floorCell := none, completedCell := none, expandedRow := none }

/-- A row whose only present data is an expanded address. -/
def rowWithAddress (a : String) : RowInput :=
  { dateCell := none, bedroomCell := none, priceCell := none,
    floorCell := none, completedCell := none,
    expandedRow := some { leaseItem := none, addressItem := some (some a) } }

/-- A row with every cell absent. -/
def rowAllAbsent : RowInput :=
  { dateCell := none, bedroomCell := none, priceCell := none,
    floorCell := none, completedCell := none, expandedRow := none }

/-- The transaction produced by `extractRow` on `rowWithDate d`. -/
def txWithDate (d : String) : Transaction :=
  { date := some d, bedrooms := none, size := none, price := none,
    pricePerSqft := none, floorLevel := none, buildStatus := none,
    lease := none, address := none, floor := none }

/-- A page on which rows appear, `n` copies of `rowWithDate d` are extracted,
the next button exists and the click succeeds; `en` is whether the enclosing
`li` lacks the `disabled` class. -/
def pg (d : String) (n : Nat) (en : Bool) : PageState :=
  { rowsAppear := true, rowInputs := List.replicate n (rowWithDate d),
    nextExists := true, nextEnabled := en, clickOk := true }

/-- A page state on which the `.table-row-collapsed` wait times out. -/
def pgNoRows : PageState :=
  { rowsAppear := false, rowInputs := [], nextExists := false,
    nextEnabled := false, clickOk := false }

/-- The 3-page scenario of the spec: 10, 10 and 4 rows, next button disabled
only on page 3. -/
def threePagesEnv : CrawlEnv :=
  { newPageOk := true, newPageErrMsg := "", navOk := true, navErrMsg := "",
    tableRootAppears := true,
    pages := [pg "p1" 10 true, pg "p2" 10 true, pg "p3" 4 false] }

def cpg (d : String) (n : Nat) (en : Bool) : CliPage :=
  { rowInputs := List.replicate n (rowWithDate d),
    nextExists := true, nextEnabled := en, clickOk := true }

def cliThreePagesEnv : CliEnv :=
  { navOk := true, navErrMsg := "", tableRootAppears := true,
    initialRowsAppear := true,
    pages := [cpg "p1" 10 true, cpg "p2" 10 true, cpg "p3" 4 false] }

/-- The 24 transactions of the 3-page scenario, page order then row order. -/
def txs24 : List Transaction :=
  List.replicate 10 (txWithDate "p1") ++ List.replicate 10 (txWithDate "p2")
    ++ List.replicate 4 (txWithDate "p3")

/-- A single page whose next button is usable but whose click throws. -/
def clickFailEnv : CrawlEnv :=
  { newPageOk := true, newPageErrMsg := "", navOk := true, navErrMsg := "",
    tableRootAppears := true,
    pages := [{ rowsAppear := true, rowInputs := [rowWithDate "q0"],
                nextExists := true, nextEnabled := true, clickOk := false }] }

/-- One fully-scraped page followed by a successful click after which no rows
ever appear: the counter is incremented but the second page yields nothing. -/
def earlyBreakEnv : CrawlEnv :=
  { newPageOk := true, newPageErrMsg := "", navOk := true, navErrMsg := "",
    tableRootAppears := true, pages := [pg "q1" 1 true, pgNoRows] }

/-- An environment whose navigation (page.goto) throws. -/
def navFailEnv : CrawlEnv :=
  { newPageOk := true, newPageErrMsg := "", navOk := false,
    navErrMsg := "net::ERR_NAME_NOT_RESOLVED", tableRootAppears := true,
    pages := [] }

/-- An environment that navigates but whose table-root marker never appears. -/
def noTableEnv : CrawlEnv :=
  { newPageOk := true, newPageErrMsg := "", navOk := true, navErrMsg := "",
    tableRootAppears := false, pages := [] }

/-- A trivially successful environment: the table is present but no row ever
renders, so the loop ends on its first iteration. -/
def emptyTableEnv : CrawlEnv :=
  { newPageOk := true, newPageErrMsg := "", navOk := true, navErrMsg := "",
    tableRootAppears := true, pages := [pgNoRows] }

/-- Per-URL environments for the three-URL batch in which only the second URL
fails to navigate. -/
def navFailSecondEnv : Nat → CrawlEnv :=
  fun i => if i = 1 then navFailEnv else emptyTableEnv

/-- A launcher whose every launch succeeds, giving browsers consecutive ids. -/
def launchOk : Nat → Except String Browser := fun i => Except.ok i

/-- A launcher whose second launch (index 1) throws. -/
def launchFailSecond : Nat → Except String Browser :=
  fun i => if i = 0 then Except.ok 7 else Except.error "spawn ENOMEM"

/-! ## Helper lemmas -/

theorem mapWithIndex_length (f : Nat → α → β) (k : Nat) (l : List α) :
    (mapWithIndex f k l).length = l.length := by
  induction l generalizing k with
  | nil => rfl
  | cons a as ih => simp [mapWithIndex, ih]

theorem mapWithIndex_getElem? (f : Nat → α → β) (k i : Nat) (l : List α) :
    (mapWithIndex f k l)[i]? = l[i]?.map (f (k + i)) := by
  induction l generalizing k i with
  | nil => simp [mapWithIndex]
  | cons a as ih =>
    cases i with
    | zero => simp [mapWithIndex]
    | succ n =>
      simp only [mapWithIndex, List.getElem?_cons_succ, ih (k + 1) n]
      have : k + 1 + n = k + (n + 1) := by omega
      rw [this]

theorem mapWithIndex_map (g : β → γ) (f : Nat → α → β) (k : Nat) (l : List α) :
    (mapWithIndex f k l).map g = mapWithIndex (fun i a => g (f i a)) k l := by
  induction l generalizing k with
  | nil => rfl
  | cons a as ih => simp [mapWithIndex, ih]

theorem initBrowsersLoop_ok (launch : Nat → Except String Browser)
    (h : ∀ i, ∃ b, launch i = Except.ok b) (fuel : Nat) :
    ∀ (i : Nat) (acc : List Browser),
      (initBrowsersLoop launch i fuel acc).2 = none ∧
      (initBrowsersLoop launch i fuel acc).1.length = acc.length + fuel := by
  induction fuel with
  | zero => intro i acc; simp [initBrowsersLoop]
  | succ n ih =>
    intro i acc
    obtain ⟨b, hb⟩ := h i
    simp only [initBrowsersLoop, hb]
    refine ⟨(ih (i + 1) (acc ++ [b])).1, ?_⟩
    rw [(ih (i + 1) (acc ++ [b])).2]
    simp; omega

theorem initBrowsers_ok (launch : Nat → Except String Browser) (c : Nat)
    (h : ∀ i, ∃ b, launch i = Except.ok b) :
    (initBrowsers launch c).2 = none ∧ (initBrowsers launch c).1.length = c := by
  have := initBrowsersLoop_ok launch h c 0 []
  simpa [initBrowsers] using this

/-- A CLI environment whose table-root marker never appears. -/
def cliNoTableEnv : CliEnv :=
  { navOk := true, navErrMsg := "", tableRootAppears := false,
    initialRowsAppear := false, pages := [] }

theorem lookup_deleteSession (reg : List (String × CrawlSession)) (sid : String) :
    List.lookup sid (deleteSession reg sid) = none := by
  induction reg with
  | nil => rfl
  | cons p t ih =>
    by_cases h : p.1 = sid
    · simpa [deleteSession, List.filter_cons, h] using ih
    · simp only [deleteSession, List.filter_cons] at *
      rw [if_pos (by simpa using h)]
      rw [List.lookup]
      have : (sid == p.1) = false := by simpa using fun he => h he.symm
      rw [this]
      exact ih

theorem mapWithIndex_getD_urls (urls : List String) (res : List γ) :
    ∀ (k : Nat), k + res.length = urls.length →
      mapWithIndex (fun i _ => urls.getD i "") k res = urls.drop k := by
  induction res with
  | nil =>
    intro k hk
    rw [mapWithIndex]
    symm
    exact List.drop_eq_nil_of_le (by simp at hk; omega)
  | cons x res ih =>
    intro k hk
    have hklt : k < urls.length := by simp at hk; omega
    rw [mapWithIndex, List.drop_eq_getElem_cons hklt]
    congr 1
    · rw [List.getD_eq_getElem?_getD, List.getElem?_eq_getElem hklt]
      rfl
    · exact ih (k + 1) (by simp at hk ⊢; omega)

theorem crawlPropertyGuru_navFail (browsers : List Browser) (url : String)
    (i : Nat) (env : CrawlEnv) (hb : browsers ≠ [])
    (h1 : env.newPageOk = true) (h2 : env.navOk = false) :
    crawlPropertyGuru browsers url i env =
      Except.ok { url := url, error := some env.navErrMsg,
                  totalTransactions := none, totalPages := none, transactions := [] } := by
  have hlt : browserIndexFor i browsers < browsers.length :=
    Nat.mod_lt i (List.length_pos.mpr hb)
  simp [crawlPropertyGuru, List.getElem?_eq_getElem hlt, h1, h2]

theorem crawlPropertyGuru_noTable (browsers : List Browser) (url : String)
    (i : Nat) (env : CrawlEnv) (hb : browsers ≠ [])
    (h1 : env.newPageOk = true) (h2 : env.navOk = true)
    (h3 : env.tableRootAppears = false) :
    crawlPropertyGuru browsers url i env =
      Except.ok { url := url, error := some "No price history table found",
                  totalTransactions := none, totalPages := none, transactions := [] } := by
  have hlt : browserIndexFor i browsers < browsers.length :=
    Nat.mod_lt i (List.length_pos.mpr hb)
  simp [crawlPropertyGuru, List.getElem?_eq_getElem hlt, h1, h2, h3]

theorem crawlPropertyGuru_run (browsers : List Browser) (url : String)
    (i : Nat) (env : CrawlEnv) (hb : browsers ≠ [])
    (h1 : env.newPageOk = true) (h2 : env.navOk = true)
    (h3 : env.tableRootAppears = true) :
    crawlPropertyGuru browsers url i env =
      Except.ok { url := url, error := none,
                  totalTransactions := some (pagLoop env.pages [] 1).1.length,
                  totalPages := some (pagLoop env.pages [] 1).2,
                  transactions := (pagLoop env.pages [] 1).1 } := by
  have hlt : browserIndexFor i browsers < browsers.length :=
    Nat.mod_lt i (List.length_pos.mpr hb)
  simp [crawlPropertyGuru, List.getElem?_eq_getElem hlt, h1, h2, h3]

theorem crawlMultipleUrls_ok (launch : Nat → Except String Browser) (c : Nat)
    (urls : List String) (env : Nat → CrawlEnv)
    (hlaunch : ∀ i, ∃ b, launch i = Except.ok b) :
    (crawlMultipleUrls launch c urls env none).1 =
      Except.ok (mapWithIndex (settleEntry urls) 0
        (mapWithIndex (fun i url =>
          crawlPropertyGuru (initBrowsers launch c).1 (jsTrim url) i (env i)) 0 urls)) := by
  obtain ⟨h2, -⟩ := initBrowsers_ok launch c hlaunch
  simp only [crawlMultipleUrls]
  rw [h2]

theorem crawlEntries_getElem? (browsers : List Browser) (urls : List String)
    (env : Nat → CrawlEnv) (i : Nat) :
    (mapWithIndex (settleEntry urls) 0
      (mapWithIndex (fun i url =>
        crawlPropertyGuru browsers (jsTrim url) i (env i)) 0 urls))[i]? =
    urls[i]?.map (fun url =>
      settleEntry urls i (crawlPropertyGuru browsers (jsTrim url) i (env i))) := by
  rw [mapWithIndex_getElem?, mapWithIndex_getElem?, Option.map_map]
  simp only [Nat.zero_add]
  rfl

/-! ## Claim-level theorems -/

/-- Claim C10: for both CLI commands, headless mode is disabled exactly when
the `--headless` option value is the string "false"; since that option's
declared default is the string "false", both commands default to a visible
(non-headless) browser, while any other value — including "0" and "no" —
yields headless mode. -/
theorem headlessMode_iff_false :
    (∀ s : String, priceHistoryHeadlessMode s = false ↔ s = "false")
    ∧ (∀ s : String, crawlCommandHeadlessMode s = false ↔ s = "false")
    ∧ headlessOptionDefault = "false"
    ∧ priceHistoryHeadlessMode headlessOptionDefault = false
    ∧ crawlCommandHeadlessMode headlessOptionDefault = false
    ∧ priceHistoryHeadlessMode "0" = true
    ∧ crawlCommandHeadlessMode "0" = true
    ∧ priceHistoryHeadlessMode "no" = true
    ∧ crawlCommandHeadlessMode "no" = true := by
  refine ⟨fun s => ?_, fun s => ?_, by decide, by decide, by decide,
    by decide, by decide, by decide, by decide⟩ <;>
  · by_cases h : s = "false" <;>
      simp [priceHistoryHeadlessMode, crawlCommandHeadlessMode, h]

/-- Claim C9: a progress emission for a session identifier that is absent
from the registry (never registered, or already deleted) is a silent no-op —
the total function `emitProgress` returns the registry, and with it every
attached sink, unchanged — and after a session is deleted from the registry a
further emission for it changes nothing, so no event reaches any sink. -/
theorem emitProgress_absent_noop (reg : List (String × CrawlSession))
    (sid : String) (d : String) :
    (List.lookup sid reg = none → emitProgress reg sid d = reg)
    ∧ emitProgress (deleteSession reg sid) sid d = deleteSession reg sid := by
  constructor
  · intro h
    simp [emitProgress, h]
  · simp [emitProgress, lookup_deleteSession reg sid]

theorem emitProgress_absent_noop_witness :
    emitProgress [("17", { res := some [], startTime := 5 })] "42" "evt"
      = [("17", { res := some [], startTime := 5 })]
    ∧ emitProgress
        (deleteSession [("17", { res := some [], startTime := 5 })] "17") "17" "evt"
      = deleteSession [("17", { res := some [], startTime := 5 })] "17" :=
  ⟨(emitProgress_absent_noop [("17", { res := some [], startTime := 5 })] "42" "evt").1
      (by decide),
   (emitProgress_absent_noop [("17", { res := some [], startTime := 5 })] "17" "evt").2⟩

/-- Claim C8: the row extractor is a total function of the observed row, and
whenever a sub-field container is absent the corresponding output fields are
omitted (`none`, which in particular is not an empty-string default) — for
the top-level cells as well as for the lease and address items of the
expanded panel. -/
theorem extractRow_missing_omitted (r : RowInput) :
    (r.dateCell = none → (extractRow r).date = none)
    ∧ (r.bedroomCell = none →
        (extractRow r).bedrooms = none ∧ (extractRow r).size = none)
    ∧ (r.priceCell = none →
        (extractRow r).price = none ∧ (extractRow r).pricePerSqft = none)
    ∧ (r.floorCell = none → (extractRow r).floorLevel = none)
    ∧ (r.completedCell = none → (extractRow r).buildStatus = none)
    ∧ (r.expandedRow = none →
        (extractRow r).lease = none ∧ (extractRow r).address = none
          ∧ (extractRow r).floor = none)
    ∧ (∀ panel, r.expandedRow = some panel → panel.leaseItem = none →
        (extractRow r).lease = none)
    ∧ (∀ panel, r.expandedRow = some panel → panel.addressItem = none →
        (extractRow r).address = none ∧ (extractRow r).floor = none) := by
  refine ⟨fun h => ?_, fun h => ?_, fun h => ?_, fun h => ?_, fun h => ?_,
    fun h => ?_, fun panel hp hl => ?_, fun panel hp ha => ?_⟩ <;>
    simp [extractRow, *]

theorem extractRow_missing_omitted_witness :
    (extractRow rowAllAbsent).date = none
    ∧ (extractRow rowAllAbsent).bedrooms = none
    ∧ (extractRow rowAllAbsent).floor = none :=
  ⟨(extractRow_missing_omitted rowAllAbsent).1 rfl,
   ((extractRow_missing_omitted rowAllAbsent).2.1 rfl).1,
   ((extractRow_missing_omitted rowAllAbsent).2.2.2.2.2.1 rfl).2.2⟩

/-- Claim C7 (amended): the floor pattern is the unit marker `#` followed by
ONE or more digits and a hyphen, and the extracted floor is the matched digit
substring verbatim: "#07-12, Example Rd" yields floor "07", "#03-xx" yields
"03" (not "3"), and the single-digit "#3-x" already matches, yielding "3";
an address with no such match, and a row with no address, leave `floor`
omitted, and `floor` is present only when `address` is present. -/
theorem extractRow_floor_pattern :
    (extractRow (rowWithAddress "#07-12, Example Rd")).floor = some "07"
    ∧ (extractRow (rowWithAddress "#07-12, Example Rd")).address
        = some "#07-12, Example Rd"
    ∧ (extractRow (rowWithAddress "#03-xx")).floor = some "03"
    ∧ (extractRow (rowWithAddress "#3-x")).floor = some "3"
    ∧ (extractRow (rowWithAddress "Example Rd only")).floor = none
    ∧ (∀ r : RowInput, (extractRow r).address = none → (extractRow r).floor = none) := by
  refine ⟨by decide, by decide, by decide, by decide, by decide, ?_⟩
  intro r h
  rcases r with ⟨d, b, pr, fc, cc, e⟩
  cases e with
  | none => simp [extractRow]
  | some panel =>
    rcases panel with ⟨li, ai⟩
    cases ai with
    | none => simp [extractRow]
    | some addr =>
      cases addr with
      | none => simp [extractRow]
      | some a => simp [extractRow] at h

theorem extractRow_floor_pattern_witness :
    (extractRow rowAllAbsent).floor = none :=
  extractRow_floor_pattern.2.2.2.2.2 rowAllAbsent (by decide)

/-- Claim C7 is false as stated in what it reports of the pattern: the source
regular expression `#(\d+)-` needs only one digit, and the capture is
verbatim, so the address "#03-xx" yields floor "03" — not "3" — and the
single-digit "#3-x" matches. -/
theorem extractRow_floor_pattern_cex :
    (extractRow (rowWithAddress "#03-xx")).floor = some "03"
    ∧ (extractRow (rowWithAddress "#03-xx")).floor ≠ some "3"
    ∧ (extractRow (rowWithAddress "#3-x")).floor = some "3" := by
  refine ⟨by decide, by decide, by decide⟩

/-- Claim C2 (amended): when the page loads but the table-root marker never
appears within its bounded wait, the per-URL crawl terminates without
throwing — but with the error-variant result `{ url, error, transactions: [] }`:
its `error` field is set, its transactions list is empty, and it carries NO
`totalPages` field (in particular not `totalPages = 1`); the CLI variant
instead returns early without writing any output document. -/
theorem crawl_tableMissing_errorVariant (browsers : List Browser) (url : String)
    (i : Nat) (env : CrawlEnv) (cenv : CliEnv)
    (hb : browsers ≠ []) (h1 : env.newPageOk = true) (h2 : env.navOk = true)
    (h3 : env.tableRootAppears = false)
    (h4 : cenv.navOk = true) (h5 : cenv.tableRootAppears = false) :
    crawlPropertyGuru browsers url i env =
      Except.ok { url := url, error := some "No price history table found",
                  totalTransactions := none, totalPages := none, transactions := [] }
    ∧ crawlPriceHistory url cenv = Except.ok none := by
  refine ⟨crawlPropertyGuru_noTable browsers url i env hb h1 h2 h3, ?_⟩
  simp [crawlPriceHistory, h4, h5]

theorem crawl_tableMissing_errorVariant_witness :
    crawlPropertyGuru [0] "u" 0 noTableEnv =
      Except.ok { url := "u", error := some "No price history table found",
                  totalTransactions := none, totalPages := none, transactions := [] }
    ∧ crawlPriceHistory "u" cliNoTableEnv = Except.ok none :=
  crawl_tableMissing_errorVariant [0] "u" 0 noTableEnv cliNoTableEnv
    (by decide) rfl rfl rfl rfl rfl

/-- Claim C2 is false as stated: with the table-root marker absent the
controller's result carries a set `error` field (it IS the error variant) and
no `totalPages` field at all, rather than a success outcome with
`totalPages = 1`. -/
theorem crawl_tableMissing_cex :
    (crawlPropertyGuru [0] "u" 0 noTableEnv).toOption.map CrawlData.error
        = some (some "No price history table found")
    ∧ (crawlPropertyGuru [0] "u" 0 noTableEnv).toOption.map CrawlData.totalPages
        ≠ some (some 1)
    ∧ (crawlPropertyGuru [0] "u" 0 noTableEnv).toOption.map CrawlData.transactions
        = some [] := by
  refine ⟨by decide, by decide, by decide⟩

/-- Claim C5: on a table presenting three pages of 10, 10 and 4 rows whose
next control's enclosing element carries the disabled marker only on page 3,
the controller accumulates exactly 24 transactions in page order then row
order and reports totalPages = 3 — in the server variant and in the CLI
variant alike; and on any iteration whose row wait and click succeed, the
loop continues past the page precisely when the next control exists and its
enclosing control is not marked disabled, stopping otherwise. -/
theorem pagination_threePages (st : PageState) (rest : List PageState)
    (acc : List Transaction) (p : Nat)
    (hr : st.rowsAppear = true) (hc : st.clickOk = true) :
    pagLoop (st :: rest) acc p =
      (if st.nextExists && st.nextEnabled
       then pagLoop rest (acc ++ st.rowInputs.map extractRow) (p + 1)
       else (acc ++ st.rowInputs.map extractRow, p))
    ∧ crawlPropertyGuru [0] "u" 0 threePagesEnv =
        Except.ok { url := "u", error := none, totalTransactions := some 24,
                    totalPages := some 3, transactions := txs24 }
    ∧ txs24.length = 24
    ∧ crawlPriceHistory "u" cliThreePagesEnv =
        Except.ok (some { url := "u", totalTransactions := 24, totalPages := 3,
                          transactions := txs24 }) := by
  refine ⟨?_, by decide, by decide, by decide⟩
  cases he : st.nextExists <;> cases hen : st.nextEnabled <;>
    simp [pagLoop, hr, hc, he, hen]

theorem pagination_threePages_witness :
    crawlPropertyGuru [0] "u" 0 threePagesEnv =
      Except.ok { url := "u", error := none, totalTransactions := some 24,
                  totalPages := some 3, transactions := txs24 } :=
  (pagination_threePages (pg "w" 1 false) [] [] 1 rfl rfl).2.1

/-- Claim C6: when the next-button click (or its following wait) throws, the
pagination loop ends without raising: the transactions accumulated so far and
the current page counter are what the crawl returns, inside the success-shaped
(error-free) result; and after a successful click-and-increment whose next
page never shows rows, the reported totalPages is one greater than the number
of pages whose rows were extracted (`earlyBreakEnv`: one page of rows
extracted, totalPages = 2). -/
theorem pagination_clickFailure (st : PageState) (rest : List PageState)
    (acc : List Transaction) (p : Nat)
    (hr : st.rowsAppear = true) (he : st.nextExists = true)
    (hen : st.nextEnabled = true) (hc : st.clickOk = false) :
    pagLoop (st :: rest) acc p = (acc ++ st.rowInputs.map extractRow, p)
    ∧ crawlPropertyGuru [0] "u" 0 clickFailEnv =
        Except.ok { url := "u", error := none, totalTransactions := some 1,
                    totalPages := some 1, transactions := [txWithDate "q0"] }
    ∧ crawlPropertyGuru [0] "u" 0 earlyBreakEnv =
        Except.ok { url := "u", error := none, totalTransactions := some 1,
                    totalPages := some 2, transactions := [txWithDate "q1"] } := by
  refine ⟨?_, by decide, by decide⟩
  simp [pagLoop, hr, he, hen, hc]

theorem pagination_clickFailure_witness :
    pagLoop [{ rowsAppear := true, rowInputs := [rowWithDate "w"],
               nextExists := true, nextEnabled := true, clickOk := false }] [] 1
      = ([txWithDate "w"], 1) := by
  have h := (pagination_clickFailure
    { rowsAppear := true, rowInputs := [rowWithDate "w"],
      nextExists := true, nextEnabled := true, clickOk := false }
    [] [] 1 rfl rfl rfl rfl).1
  simpa [rowWithDate, txWithDate, extractRow] using h

/-- Claim C3 (amended): whenever provisioning completes — every launch
succeeds — every provisioned browser instance is torn down by the time the
batch finishes, for any per-URL outcomes (failures included) and even when
the aggregation step throws; but when provisioning itself throws partway,
the already-provisioned instances are NOT closed, because the source awaits
`initBrowsers()` before entering the `try`/`finally` that performs
teardown. -/
theorem crawlMultipleUrls_teardown (launch : Nat → Except String Browser)
    (c : Nat) (urls : List String) (env : Nat → CrawlEnv) (aggErr : Option String)
    (hlaunch : ∀ i, ∃ b, launch i = Except.ok b) :
    (crawlMultipleUrls launch c urls env aggErr).2 = [] := by
  obtain ⟨h2, -⟩ := initBrowsers_ok launch c hlaunch
  simp only [crawlMultipleUrls]
  rw [h2]
  cases aggErr <;> rfl

theorem crawlMultipleUrls_teardown_witness :
    (crawlMultipleUrls launchOk 3 ["u1", "u2", "u3"] navFailSecondEnv
      (some "aggregation failed")).2 = [] :=
  crawlMultipleUrls_teardown launchOk 3 ["u1", "u2", "u3"] navFailSecondEnv
    (some "aggregation failed") (fun i => ⟨i, rfl⟩)

/-- Claim C3 is false as stated for the provisioning-failure case: with a
concurrency of 2 and the second launch throwing, the batch call propagates
the launch error while browser 7 — provisioned just before — is left open,
because cleanup never runs on this path. -/
theorem crawlMultipleUrls_teardown_cex :
    crawlMultipleUrls launchFailSecond 2 ["u1"] (fun _ => emptyTableEnv) none
      = (Except.error "spawn ENOMEM", [7])
    ∧ ([7] : List Browser) ≠ [] := by
  refine ⟨by decide, by decide⟩

/-- Claim C4: for any list of N urls and concurrency budget c (with every
launch succeeding), provisioning creates exactly c browser instances
regardless of N; the per-URL crawl of index i uses browser i % c; and the
batch result holds exactly N outcomes in input order, each entry carrying its
own URL and the settled outcome of its own crawl. -/
theorem crawlMultipleUrls_roundRobin (launch : Nat → Except String Browser)
    (c : Nat) (urls : List String) (env : Nat → CrawlEnv)
    (hlaunch : ∀ i, ∃ b, launch i = Except.ok b) :
    (initBrowsers launch c).1.length = c
    ∧ (∀ i : Nat, browserIndexFor i (initBrowsers launch c).1 = i % c)
    ∧ (∃ entries : List BatchEntry,
        (crawlMultipleUrls launch c urls env none).1 = Except.ok entries
        ∧ entries.length = urls.length
        ∧ entries.map BatchEntry.url = urls
        ∧ (∀ i : Nat, entries[i]? = urls[i]?.map (fun url =>
            settleEntry urls i
              (crawlPropertyGuru (initBrowsers launch c).1 (jsTrim url) i (env i))))) := by
  obtain ⟨h2, hlen⟩ := initBrowsers_ok launch c hlaunch
  refine ⟨hlen, fun i => by rw [browserIndexFor, hlen], ?_⟩
  refine ⟨_, crawlMultipleUrls_ok launch c urls env hlaunch, ?_, ?_, ?_⟩
  · rw [mapWithIndex_length, mapWithIndex_length]
  · rw [mapWithIndex_map]
    have hfun : (fun (i : Nat) (r : Except String CrawlData) => (settleEntry urls i r).url)
        = fun (i : Nat) (_ : Except String CrawlData) => urls.getD i "" := rfl
    rw [hfun, mapWithIndex_getD_urls urls _ 0 (by rw [mapWithIndex_length]; omega)]
    exact List.drop_zero urls
  · intro i
    exact crawlEntries_getElem? (initBrowsers launch c).1 urls env i

theorem crawlMultipleUrls_roundRobin_witness :
    (initBrowsers launchOk 2).1.length = 2
    ∧ browserIndexFor 5 (initBrowsers launchOk 2).1 = 1
    ∧ ((crawlMultipleUrls launchOk 2 ["a", "b", "c"]
          (fun _ => emptyTableEnv) none).1.toOption.getD []).map BatchEntry.url
        = ["a", "b", "c"] := by
  obtain ⟨hlen, hmod, es, h1, -, h3, -⟩ :=
    crawlMultipleUrls_roundRobin launchOk 2 ["a", "b", "c"]
      (fun _ => emptyTableEnv) (fun i => ⟨i, rfl⟩)
  refine ⟨hlen, by simpa using hmod 5, ?_⟩
  rw [h1]
  simpa [Except.toOption] using h3

/-- Claim C1 (amended): in any batch in which some URL's crawl throws during
navigation (the tab opened, `page.goto` threw), the batch still completes:
it returns one entry per URL, each other URL's entry being the settled
outcome of its own crawl, unaffected by the failure; the entry for the
failing URL, however, is marked success = true — the per-URL crawl catches
the navigation error and fulfills — with the captured error message carried
inside its data payload (whose transactions list is empty) and with the
entry-level error field null.  (success = false would require the per-URL
promise itself to reject, which a navigation throw cannot cause.) -/
theorem crawlMultipleUrls_navFailure_isolated (launch : Nat → Except String Browser)
    (c : Nat) (urls : List String) (env : Nat → CrawlEnv) (j : Nat)
    (hlaunch : ∀ i, ∃ b, launch i = Except.ok b) (hc : 0 < c)
    (hj : j < urls.length)
    (hnew : (env j).newPageOk = true) (hnav : (env j).navOk = false) :
    ∃ entries : List BatchEntry,
      (crawlMultipleUrls launch c urls env none).1 = Except.ok entries
      ∧ entries.length = urls.length
      ∧ (∀ i : Nat, i ≠ j → entries[i]? = urls[i]?.map (fun url =>
          settleEntry urls i
            (crawlPropertyGuru (initBrowsers launch c).1 (jsTrim url) i (env i))))
      ∧ entries[j]? = some
          { url := urls.getD j ""
          , success := true
          , data := some { url := jsTrim (urls.getD j ""),
                           error := some (env j).navErrMsg,
                           totalTransactions := none, totalPages := none,
                           transactions := [] }
          , error := none } := by
  obtain ⟨h2, hlen⟩ := initBrowsers_ok launch c hlaunch
  refine ⟨_, crawlMultipleUrls_ok launch c urls env hlaunch, ?_, ?_, ?_⟩
  · rw [mapWithIndex_length, mapWithIndex_length]
  · intro i _
    exact crawlEntries_getElem? (initBrowsers launch c).1 urls env i
  · have hbne : (initBrowsers launch c).1 ≠ [] := by
      intro hnil
      rw [hnil] at hlen
      simp at hlen
      omega
    have hgetD : urls.getD j "" = urls[j] := by
      rw [List.getD_eq_getElem?_getD, List.getElem?_eq_getElem hj]
      rfl
    have hsome : urls[j]? = some (urls.getD j "") := by
      rw [List.getElem?_eq_getElem hj, hgetD]
    rw [crawlEntries_getElem? (initBrowsers launch c).1 urls env j, hsome,
      Option.map_some',
      crawlPropertyGuru_navFail (initBrowsers launch c).1 (jsTrim (urls.getD j ""))
        j (env j) hbne hnew hnav]
    rfl

theorem crawlMultipleUrls_navFailure_isolated_witness :
    ((crawlMultipleUrls launchOk 3 ["u1", "u2", "u3"] navFailSecondEnv
        none).1.toOption.getD []).length = 3 := by
  obtain ⟨es, h1, h2, -, -⟩ :=
    crawlMultipleUrls_navFailure_isolated launchOk 3 ["u1", "u2", "u3"]
      navFailSecondEnv 1 (fun i => ⟨i, rfl⟩) (by decide) (by decide) rfl rfl
  rw [h1]
  simpa [Except.toOption] using h2

/-- Claim C1 is false as stated on how the failing URL is marked: in a
three-URL batch whose second URL throws during navigation, the other two
URLs complete and report their own outcomes, but the entry for the failing
URL carries success = true — not success = false — with the captured message
only inside its data payload. -/
theorem crawlMultipleUrls_navFailure_cex :
    (crawlMultipleUrls launchOk 3 ["u1", "u2", "u3"] navFailSecondEnv none).1 =
      Except.ok
        [ { url := "u1", success := true,
            data := some { url := "u1", error := none, totalTransactions := some 0,
                           totalPages := some 1, transactions := [] },
            error := none }
        , { url := "u2", success := true,
            data := some { url := "u2",
                           error := some "net::ERR_NAME_NOT_RESOLVED",
                           totalTransactions := none, totalPages := none,
                           transactions := [] },
            error := none }
        , { url := "u3", success := true,
            data := some { url := "u3", error := none, totalTransactions := some 0,
                           totalPages := some 1, transactions := [] },
            error := none } ] := by
  decide
